import Mathlib

/-!
# Verification of the selector-driven HTML field extraction/update engine

Shallow embedding of `src/server.js` of the `www.openbank.es` admin tool.

Modelling conventions:
* A parsed HTML document is represented by the lists of text contents of the
  nodes matched by each CSS selector the server uses.  Node lists belonging to
  distinct selectors are modelled as disjoint.
* cheerio's `.text()` getter on a selection concatenates the texts of all
  matched nodes; the `.text(v)` setter writes `v` into every matched node;
  `.text(undefined)` (an absent field) acts as a getter and writes nothing.
* The euro sign, which the source file stores as the UTF-8 bytes `â‚¬`,
  is written `€` here.
* JavaScript string primitives (`trim`, `startsWith`, `parseFloat`,
  `replace(/^\.+/, "")`, `replace(" €", "")`, template literals) are given
  executable models on `List Char` below.
-/

namespace OpenbankServer

/-- JS `String.prototype.trim()`: strip leading and trailing whitespace. -/
def jsTrim (s : String) : String :=
  String.mk (((s.toList.dropWhile Char.isWhitespace).reverse.dropWhile
    Char.isWhitespace).reverse)

/-- JS `s.startsWith(p)`. -/
def strStartsWith (s p : String) : Bool :=
  List.isPrefixOf p.toList s.toList

/-- Does the list start with a decimal digit? -/
def startsWithDigit : List Char → Bool
  | c :: _ => c.isDigit
  | [] => false

/-- Models `!isNaN(parseFloat(s))`: JS `parseFloat` skips leading whitespace,
accepts an optional sign and then needs a digit, a dot followed by a digit, or
the literal `Infinity`; otherwise it yields `NaN`. -/
def parseFloatIsNum (s : String) : Bool :=
  let cs := s.toList.dropWhile Char.isWhitespace
  let cs := match cs with
    | c :: rest => if c = '+' ∨ c = '-' then rest else c :: rest
    | [] => []
  startsWithDigit cs
    || (match cs with
        | '.' :: rest => startsWithDigit rest
        | _ => false)
    || List.isPrefixOf "Infinity".toList cs

/-- The numeric-and-non-currency filter used throughout the server:
`text && !isNaN(parseFloat(text)) && text !== "€"` (applied to trimmed text). -/
def qualifies (t : String) : Bool :=
  (t != "") && parseFloatIsNum t && (t != "€")

/-- `selection.text(v)`: write `v` into every matched node. -/
def setAll (ns : List String) (v : String) : List String :=
  ns.map (fun _ => v)

/-- `selection.first().text(v)`: write `v` into the first matched node. -/
def setFirst (ns : List String) (v : String) : List String :=
  match ns with
  | [] => []
  | _ :: rest => v :: rest

/-- The `each`-loop with `return false` after the first qualifying node:
write `v` into the first node whose trimmed text passes `qualifies`. -/
def updateFirstNumeric : List String → String → List String
  | [], _ => []
  | t :: ts, v =>
    if qualifies (jsTrim t) then v :: ts else t :: updateFirstNumeric ts v

/-- The `each`-loop without a break: write `v` into every node whose trimmed
text passes `qualifies`. -/
def updateAllNumeric (ns : List String) (v : String) : List String :=
  ns.map (fun t => if qualifies (jsTrim t) then v else t)

/-- The extraction loop: trimmed text of the first node passing `qualifies`,
else the default. -/
def extractFirstNumeric (ns : List String) (dflt : String) : String :=
  match ns.find? (fun t => qualifies (jsTrim t)) with
  | some t => jsTrim t
  | none => dflt

/-- cheerio `.text()` getter on a whole selection, then `.trim()`. -/
def joinedText (ns : List String) : String :=
  jsTrim (String.join ns)

/-- `if (sel.length > 0) { const t = sel.text().trim(); if (t && t !== "") v = t }`. -/
def extractTextDefault (ns : List String) (dflt : String) : String :=
  if ns.isEmpty then dflt
  else if joinedText ns == "" then dflt
  else joinedText ns

/-- `sel.text().trim() || dflt`. -/
def textOrDefault (ns : List String) (dflt : String) : String :=
  if joinedText ns == "" then dflt else joinedText ns

/-- Avatar-name extraction: `.first()`, then use its trimmed text if nonempty. -/
def extractAvatarName (ns : List String) : String :=
  match ns with
  | [] => "Alfonso"
  | t :: _ => if jsTrim t == "" then "Alfonso" else jsTrim t

/-- Remove the first occurrence of `pat` from the list, if any. -/
def removeFirstOcc (pat : List Char) : List Char → Option (List Char)
  | [] => if pat = [] then some [] else none
  | c :: cs =>
    if List.isPrefixOf pat (c :: cs) then some (List.drop pat.length (c :: cs))
    else match removeFirstOcc pat cs with
      | some r => some (c :: r)
      | none => none

/-- JS `s.replace(pat, "")` with a plain-string pattern: remove the first
occurrence of `pat` only. -/
def replaceFirst (s pat : String) : String :=
  match removeFirstOcc pat.toList s.toList with
  | some r => String.mk r
  | none => s

/-- `formattedDigits.replace(/^\.+/, "")`: strip the leading run of dots. -/
def jsStripLeadingDots (s : String) : String :=
  String.mk (s.toList.dropWhile (fun c => c = '.'))

/-- The card-digit formatting rule, duplicated verbatim in
`updateCardDigitsGlobally`, `updateDirectDebitsValues` and
`updateTransfersValues`:
`if (!v.startsWith("...")) v = "..." + v.replace(/^\.+/, "")`. -/
def formatCardDigits (v : String) : String :=
  if strStartsWith v "..." then v else "..." ++ jsStripLeadingDots v

/-- Monthly-expenses extraction: take the first matched node's text, trim it,
remove the first `" €"`, and keep it when nonempty and numeric, else `"0.00"`. -/
def extractMonthlyExpenses (ns : List String) : String :=
  match ns with
  | [] => "0.00"
  | t :: _ =>
    let s := replaceFirst (jsTrim t) " €"
    if s != "" && parseFloatIsNum s then s else "0.00"

/-- Phrase-anchored extraction: if the section is found, take its first amount
span's trimmed text when it passes the numeric-and-non-currency filter. -/
def extractSectionAmount (sec : Option (List String)) (dflt : String) : String :=
  match sec with
  | none => dflt
  | some spans =>
    let t := jsTrim (spans.headD "")
    if t != "" && parseFloatIsNum t && t != "€" then t else dflt

/-- JS template-literal interpolation of a possibly-absent value:
`undefined` prints as the string `"undefined"`. -/
def jsTemplate : Option String → String
  | some v => v
  | none => "undefined"

/-- JS truthiness test combined with the explicit `!== ""` check the server
uses on incoming fields: present and nonempty. -/
def isGiven : Option String → Bool
  | some v => v != ""
  | none => false

/-! ## Documents

One structure per backing HTML file; each field is the list of text contents
of the nodes matched by one selector of `FIELD_CONFIGS`. -/

/-- `Openbank.html`. -/
structure OpenbankDoc where
  /-- `.glb-position-financial-card-header-col__amount span span` -/
  accountTotalNodes : List String
  /-- `.glb-position-financial-card-item__amount span span` -/
  individualNodes : List String
  /-- `.global-position-total-balance__amount span` -/
  totalSavingsNodes : List String
  /-- `.expenses-summary-box__header__expenses--total` -/
  monthlyExpNodes : List String
  /-- phrase-anchored: `:contains("Total savings and investments")` ascended to
  `.glb-all-position-summary__totalbalance-section`; `none` when the section
  is not found, otherwise the texts of its amount spans -/
  savingsSection : Option (List String)
  /-- phrase-anchored: `:contains("Total Lending")` section -/
  lendingSection : Option (List String)
  /-- `.avatar-component__alias span span` -/
  avatarNodes : List String
  /-- `.glb-position-financial-card-item__title--small` -/
  cardDigitsNodes : List String
  deriving DecidableEq, Repr

/-- `Openbank-direct-debits.html`. -/
structure DirectDebitsDoc where
  /-- `.accounts-balance__amount` -/
  accountsBalanceNodes : List String
  /-- `.accounts-box-header__iban` -/
  ibanNodes : List String
  /-- `#lblAvailableAmount0` -/
  availableAmountNodes : List String
  /-- `#lblAvailableCurrency0` -/
  availableCurrencyNodes : List String
  /-- `.avatar-component__alias span span` -/
  avatarNodes : List String
  deriving DecidableEq, Repr

/-- `Openbank-cards.html`. -/
structure CardsDoc where
  /-- `.card__card-number--small...--only-number span:last-child` -/
  cardNumberNodes : List String
  /-- `.avatar-component__alias span span` -/
  avatarNodes : List String
  deriving DecidableEq, Repr

/-- `Openbank-transfers.html`. -/
structure TransfersDoc where
  /-- `.dropdown-accounts__account-description-iban` -/
  ibanNodes : List String
  /-- `.dropdown-accounts__account-description-amount span` -/
  accountAmountNodes : List String
  /-- `.avatar-component__alias span span` -/
  avatarNodes : List String
  deriving DecidableEq, Repr

/-- The four backing files of `HTML_FILES`, i.e. the document store. -/
structure FileSystem where
  openbank : OpenbankDoc
  directDebits : DirectDebitsDoc
  cards : CardsDoc
  transfers : TransfersDoc
  deriving DecidableEq, Repr

/-- The partial record of incoming values (`newBalances`); `none` models an
absent (`undefined`) field. -/
structure NewBalances where
  accountTotalBalance : Option String := none
  individualAccountBalance : Option String := none
  totalSavingsBalance : Option String := none
  monthlyExpenses : Option String := none
  savingsInvestmentsTotal : Option String := none
  totalLending : Option String := none
  cardLastDigits : Option String := none
  avatarName : Option String := none
  accountsBalanceAmount : Option String := none
  availableAmount : Option String := none
  availableCurrency : Option String := none
  accountBalance : Option String := none
  deriving DecidableEq, Repr

/-- A document loaded by `loadHTMLFile`, tagged by its file type. -/
inductive LoadedDoc where
  | openbank (d : OpenbankDoc)
  | directDebits (d : DirectDebitsDoc)
  | cards (d : CardsDoc)
  | transfers (d : TransfersDoc)
  deriving DecidableEq, Repr

/-- Per-file outcome of a multi-file update. -/
inductive FileOutcome where
  | updated
  | skipped
  deriving DecidableEq, Repr

/-- The keys of `HTML_FILES` / `FIELD_CONFIGS`. -/
def KNOWN_FILE_TYPES : List String :=
  ["openbank", "directDebits", "cards", "transfers"]

/-- The `defaultValue` column of `FIELD_CONFIGS.openbank` (the field registry;
note `monthlyExpenses` is registered with default `"0.00 €"`). -/
def openbankRegistryDefaults : List (String × String) :=
  [("accountTotalBalance", "430.26"),
   ("individualAccountBalance", "0.00"),
   ("totalSavingsBalance", "0.00"),
   ("monthlyExpenses", "0.00 €"),
   ("savingsInvestmentsTotal", "0.00"),
   ("totalLending", "0.00"),
   ("cardLastDigits", "...2150"),
   ("avatarName", "Alfonso")]

/-! ## Extractors -/

/-- `extractOpenbankValues($)`: the per-field extraction for `Openbank.html`
(fields in the source's insertion order, with its hardcoded fallbacks). -/
def extractOpenbankValues (d : OpenbankDoc) : List (String × String) :=
  [("accountTotalBalance", extractFirstNumeric d.accountTotalNodes "430.26"),
   ("individualAccountBalance", extractFirstNumeric d.individualNodes "0.00"),
   ("totalSavingsBalance", extractFirstNumeric d.totalSavingsNodes "0.00"),
   ("monthlyExpenses", extractMonthlyExpenses d.monthlyExpNodes),
   ("savingsInvestmentsTotal", extractSectionAmount d.savingsSection "0.00"),
   ("totalLending", extractSectionAmount d.lendingSection "0.00"),
   ("avatarName", extractAvatarName d.avatarNodes),
   ("cardLastDigits", extractTextDefault d.cardDigitsNodes "...2150")]

/-- `extractDirectDebitsValues($)`. -/
def extractDirectDebitsValues (d : DirectDebitsDoc) : List (String × String) :=
  [("accountsBalanceAmount", textOrDefault d.accountsBalanceNodes "0.00"),
   ("cardLastDigits", textOrDefault d.ibanNodes "...2150"),
   ("availableAmount", textOrDefault d.availableAmountNodes "0.00"),
   ("availableCurrency", textOrDefault d.availableCurrencyNodes "€"),
   ("avatarName", extractAvatarName d.avatarNodes)]

/-- `extractCardsValues($)`. -/
def extractCardsValues (d : CardsDoc) : List (String × String) :=
  [("cardLastDigits", textOrDefault d.cardNumberNodes "1704"),
   ("avatarName", extractAvatarName d.avatarNodes)]

/-- `extractTransfersValues($)`. -/
def extractTransfersValues (d : TransfersDoc) : List (String × String) :=
  [("cardLastDigits", textOrDefault d.ibanNodes "...2150"),
   ("accountBalance", extractFirstNumeric d.accountAmountNodes "0.00"),
   ("avatarName", extractAvatarName d.avatarNodes)]

/-- `extractBalanceValues($, fileType)`: dispatch on the file type; an
unregistered file type throws `Unknown file type` (the `!fieldConfig` check
precedes the `try` block). -/
def extractBalanceValues (fs : FileSystem) (fileType : String) :
    Except String (List (String × String)) :=
  if fileType == "openbank" then .ok (extractOpenbankValues fs.openbank)
  else if fileType == "directDebits" then .ok (extractDirectDebitsValues fs.directDebits)
  else if fileType == "cards" then .ok (extractCardsValues fs.cards)
  else if fileType == "transfers" then .ok (extractTransfersValues fs.transfers)
  else .error ("Unknown file type: " ++ fileType)

/-! ## Local updaters -/

/-- `updateOpenbankValues($, newBalances)`.  Absent fields write nothing
(`.text(undefined)` acts as a getter), except the monthly-expenses write,
whose template literal `` `${v} €` `` always produces a string — an absent
value is interpolated as `"undefined"` and written unconditionally. -/
def updateOpenbankValues (d : OpenbankDoc) (r : NewBalances) : OpenbankDoc :=
  let d := match r.accountTotalBalance with
    | some v => { d with accountTotalNodes := updateFirstNumeric d.accountTotalNodes v }
    | none => d
  let d := match r.individualAccountBalance with
    | some v => { d with individualNodes := updateFirstNumeric d.individualNodes v }
    | none => d
  let d := match r.totalSavingsBalance with
    | some v => { d with totalSavingsNodes := updateFirstNumeric d.totalSavingsNodes v }
    | none => d
  let d := { d with monthlyExpNodes :=
              (setAll d.monthlyExpNodes (jsTemplate r.monthlyExpenses ++ " €")) }
  let d := match r.savingsInvestmentsTotal with
    | some v => { d with savingsSection := d.savingsSection.map (fun spans => setFirst spans v) }
    | none => d
  let d := match r.totalLending with
    | some v => { d with lendingSection := d.lendingSection.map (fun spans => setFirst spans v) }
    | none => d
  d

/-- `updateDirectDebitsValues($, newBalances)`: every write is guarded by a
present-and-nonempty check; the card digits get the dotted-prefix format. -/
def updateDirectDebitsValues (d : DirectDebitsDoc) (r : NewBalances) : DirectDebitsDoc :=
  let d := if isGiven r.accountsBalanceAmount then
      { d with accountsBalanceNodes :=
          (setAll d.accountsBalanceNodes (jsTemplate r.accountsBalanceAmount)) }
    else d
  let d := if isGiven r.cardLastDigits then
      { d with ibanNodes :=
          (setAll d.ibanNodes (formatCardDigits (jsTemplate r.cardLastDigits))) }
    else d
  let d := if isGiven r.availableAmount then
      { d with availableAmountNodes :=
          (setAll d.availableAmountNodes (jsTemplate r.availableAmount)) }
    else d
  let d := if isGiven r.availableCurrency then
      { d with availableCurrencyNodes :=
          (setAll d.availableCurrencyNodes (jsTemplate r.availableCurrency)) }
    else d
  d

/-- `updateCardsValues($, newBalances)`: the incoming card digits are written
verbatim — no prefix is added or stripped. -/
def updateCardsValues (d : CardsDoc) (r : NewBalances) : CardsDoc :=
  if isGiven r.cardLastDigits then
    { d with cardNumberNodes := setAll d.cardNumberNodes (jsTemplate r.cardLastDigits) }
  else d

/-- `updateTransfersValues($, newBalances)`: account amounts are written into
every qualifying node (no break); card digits get the dotted-prefix format. -/
def updateTransfersValues (d : TransfersDoc) (r : NewBalances) : TransfersDoc :=
  let d := if isGiven r.accountBalance then
      { d with accountAmountNodes :=
          (updateAllNumeric d.accountAmountNodes (jsTemplate r.accountBalance)) }
    else d
  let d := if isGiven r.cardLastDigits then
      { d with ibanNodes :=
          (setAll d.ibanNodes (formatCardDigits (jsTemplate r.cardLastDigits))) }
    else d
  d

/-! ## Global (multi-file) updaters

Each is parameterized by `saveFails : String → Bool`, an oracle saying which
`saveHTMLFile` calls throw a write error (§7 of the spec); normal operation is
`saveNever`.  Per-file processing sits in its own `try`/`catch`, so a failing
save discards that file's in-memory changes and processing continues. -/

/-- Normal operation: no save fails. -/
def saveNever : String → Bool := fun _ => false

/-- `updateCardDigitsGlobally(newCardDigits)`: iterate over
`["openbank", "transfers"]`; in each file set every card-digit node to the
dotted-prefix-formatted value and save.  Returns the final file system and the
`(updatedCount, skippedCount)` pair the function logs; a thrown save is caught
and counted in neither. -/
def updateCardDigitsGlobally (saveFails : String → Bool) (fs : FileSystem)
    (newCardDigits : String) : FileSystem × Nat × Nat :=
  let step1 : FileSystem × Nat × Nat :=
    if fs.openbank.cardDigitsNodes.isEmpty then (fs, 0, 1)
    else if saveFails "openbank" then (fs, 0, 0)
    else
      let ob := { fs.openbank with cardDigitsNodes :=
                    (setAll fs.openbank.cardDigitsNodes (formatCardDigits newCardDigits)) }
      ({ fs with openbank := ob }, 1, 0)
  let fs1 := step1.1
  let step2 : FileSystem × Nat × Nat :=
    if fs1.transfers.ibanNodes.isEmpty then (fs1, 0, 1)
    else if saveFails "transfers" then (fs1, 0, 0)
    else
      let tr := { fs1.transfers with ibanNodes :=
                    (setAll fs1.transfers.ibanNodes (formatCardDigits newCardDigits)) }
      ({ fs1 with transfers := tr }, 1, 0)
  (step2.1, step1.2.1 + step2.2.1, step1.2.2 + step2.2.2)

/-- `updateAccountBalanceGlobally(newAccountBalance)`: in `Openbank.html`
write the first qualifying total-balance node; in `Openbank-transfers.html`
write every qualifying account-amount node.  Its `catch` increments
`skippedCount`, so a failing save is counted as skipped. -/
def updateAccountBalanceGlobally (saveFails : String → Bool) (fs : FileSystem)
    (v : String) : FileSystem × Nat × Nat :=
  let step1 : FileSystem × Nat × Nat :=
    if fs.openbank.accountTotalNodes.any (fun t => qualifies (jsTrim t)) then
      if saveFails "openbank" then (fs, 0, 1)
      else
        let ob := { fs.openbank with accountTotalNodes :=
                      (updateFirstNumeric fs.openbank.accountTotalNodes v) }
        ({ fs with openbank := ob }, 1, 0)
    else (fs, 0, 1)
  let fs1 := step1.1
  let step2 : FileSystem × Nat × Nat :=
    if fs1.transfers.accountAmountNodes.any (fun t => qualifies (jsTrim t)) then
      if saveFails "transfers" then (fs1, 0, 1)
      else
        let tr := { fs1.transfers with accountAmountNodes :=
                      (updateAllNumeric fs1.transfers.accountAmountNodes v) }
        ({ fs1 with transfers := tr }, 1, 0)
    else (fs1, 0, 1)
  (step2.1, step1.2.1 + step2.2.1, step1.2.2 + step2.2.2)

/-- One avatar node under `updateAvatarNameGlobally`: rewritten only when its
trimmed text is nonempty and differs from the new name. -/
def avUpdateNode (newName t : String) : String :=
  if (jsTrim t != "") && (jsTrim t != newName) then newName else t

/-- Does the file contain an avatar node with nonempty trimmed text differing
from the new name (i.e. will `elementUpdated` become true)? -/
def avChanged (newName : String) (ns : List String) : Bool :=
  ns.any (fun t => (jsTrim t != "") && (jsTrim t != newName))

/-- One file under `updateAvatarNameGlobally`: no avatar elements → skipped;
some element with nonempty differing text → rewrite those elements and save
(updated); otherwise the file is not rewritten (skipped). -/
def updateAvatarFile (newName : String) (ns : List String) :
    List String × FileOutcome :=
  if ns.isEmpty then (ns, .skipped)
  else if avChanged newName ns then (ns.map (avUpdateNode newName), .updated)
  else (ns, .skipped)

/-- `updateAvatarNameGlobally(newAvatarName)` over the list of HTML files the
glob finds (each file given by its avatar-node texts): per-file results plus
the `(updatedCount, skippedCount)` totals. -/
def updateAvatarNameGlobally (newName : String) :
    List (List String) → List (List String × FileOutcome) × Nat × Nat
  | [] => ([], 0, 0)
  | f :: fsr =>
    let r := updateAvatarFile newName f
    let rest := updateAvatarNameGlobally newName fsr
    (r :: rest.1,
     (if r.2 = FileOutcome.updated then 1 else 0) + rest.2.1,
     (if r.2 = FileOutcome.skipped then 1 else 0) + rest.2.2)

/-- The avatar glob restricted to the four registered documents (the ignore
list excludes the dashboard and example files). -/
def updateAvatarGlobFS (fs : FileSystem) (n : String) : FileSystem :=
  { openbank := { fs.openbank with avatarNodes := (updateAvatarFile n fs.openbank.avatarNodes).1 }
    directDebits := { fs.directDebits with avatarNodes := (updateAvatarFile n fs.directDebits.avatarNodes).1 }
    cards := { fs.cards with avatarNodes := (updateAvatarFile n fs.cards.avatarNodes).1 }
    transfers := { fs.transfers with avatarNodes := (updateAvatarFile n fs.transfers.avatarNodes).1 } }

/-! ## The update pipeline of `POST /api/update-balances` -/

/-- `loadHTMLFile(fileType)`.  For an unknown type the function throws
`Unknown file type`, but its `catch` block rebuilds the message from
`fileName`, a `const` scoped to the `try` block — so the error that actually
escapes is the `ReferenceError` "fileName is not defined". -/
def loadHTMLFile (fileType : String) (fs : FileSystem) : Except String LoadedDoc :=
  if fileType == "openbank" then .ok (.openbank fs.openbank)
  else if fileType == "directDebits" then .ok (.directDebits fs.directDebits)
  else if fileType == "cards" then .ok (.cards fs.cards)
  else if fileType == "transfers" then .ok (.transfers fs.transfers)
  else .error "fileName is not defined"

/-- `saveHTMLFile($, fileType)`: serialize the in-memory document over its
backing file. -/
def saveHTMLFile (doc : LoadedDoc) (fs : FileSystem) : FileSystem :=
  match doc with
  | .openbank d => { fs with openbank := d }
  | .directDebits d => { fs with directDebits := d }
  | .cards d => { fs with cards := d }
  | .transfers d => { fs with transfers := d }

/-- The record that reaches the requested document's own local rules: the two
destructuring removals of `updateBalanceValues` composed.  `cardLastDigits`
and `avatarName` are removed after their global branches fire;
`accountTotalBalance` is *not* removed after `updateAccountBalanceGlobally`. -/
def workingSetAfterGlobals (fileType : String) (r : NewBalances) : NewBalances :=
  let r := if (fileType == "openbank" || fileType == "transfers")
              && isGiven r.cardLastDigits
    then { r with cardLastDigits := none } else r
  let r := if isGiven r.avatarName then { r with avatarName := none } else r
  r

/-- The final dispatch of `updateBalanceValues`: apply the file type's local
updater to the in-memory document ($); an unregistered type throws.  A
document of another shape contains none of the dispatched selectors' nodes,
so the update is a no-op on it. -/
def applyLocalUpdate (fileType : String) (doc : LoadedDoc) (r : NewBalances) :
    Except String LoadedDoc :=
  if fileType == "openbank" then
    .ok (match doc with
         | .openbank d => .openbank (updateOpenbankValues d r)
         | d => d)
  else if fileType == "directDebits" then
    .ok (match doc with
         | .directDebits d => .directDebits (updateDirectDebitsValues d r)
         | d => d)
  else if fileType == "cards" then
    .ok (match doc with
         | .cards d => .cards (updateCardsValues d r)
         | d => d)
  else if fileType == "transfers" then
    .ok (match doc with
         | .transfers d => .transfers (updateTransfersValues d r)
         | d => d)
  else .error ("Unknown file type: " ++ fileType)

/-- `updateBalanceValues($, newBalances, fileType)`: run the global branches
(card digits for openbank/transfers requests, account total balance for
openbank requests, avatar name for any request) against the file system, then
apply the remaining working set to the in-memory document.  Returns the file
system after the global saves together with the local result (or the thrown
error). -/
def updateBalanceValues (doc : LoadedDoc) (r : NewBalances) (fileType : String)
    (fs : FileSystem) : FileSystem × Except String LoadedDoc :=
  let fs := if (fileType == "openbank" || fileType == "transfers")
               && isGiven r.cardLastDigits
    then (updateCardDigitsGlobally saveNever fs (jsTemplate r.cardLastDigits)).1
    else fs
  let fs := if fileType == "openbank" && isGiven r.accountTotalBalance
    then (updateAccountBalanceGlobally saveNever fs (jsTemplate r.accountTotalBalance)).1
    else fs
  let fs := if isGiven r.avatarName
    then updateAvatarGlobFS fs (jsTemplate r.avatarName)
    else fs
  (fs, applyLocalUpdate fileType doc (workingSetAfterGlobals fileType r))

/-- The `POST /api/update-balances` route: load the requested document,
run `updateBalanceValues`, then save the (stale, loaded-before-the-globals)
in-memory document over its file. -/
def postUpdateBalances (fs : FileSystem) (fileType : String) (r : NewBalances) :
    Except String FileSystem :=
  match loadHTMLFile fileType fs with
  | .error e => .error e
  | .ok doc =>
    match updateBalanceValues doc r fileType fs with
    | (fs1, .ok doc1) => .ok (saveHTMLFile doc1 fs1)
    | (_, .error e) => .error e

/-! ## Sample documents (used by witnesses and counterexamples) -/

/-- A small `Openbank.html` state: a currency-symbol span followed by two
numeric spans under the total-balance selector. -/
def sampleOB : OpenbankDoc :=
  { accountTotalNodes := ["€", "430.26", "99.00"]
    individualNodes := ["0.00"]
    totalSavingsNodes := ["1.00"]
    monthlyExpNodes := []
    savingsSection := some ["2.00"]
    lendingSection := none
    avatarNodes := ["Alfonso"]
    cardDigitsNodes := ["...2150"] }

/-- A small four-file document store. -/
def sampleFS : FileSystem :=
  { openbank := sampleOB
    directDebits := { accountsBalanceNodes := ["10.00"], ibanNodes := ["...2150"],
                      availableAmountNodes := ["5.00"], availableCurrencyNodes := ["€"],
                      avatarNodes := ["Alfonso"] }
    cards := { cardNumberNodes := ["1704"], avatarNodes := ["Alfonso"] }
    transfers := { ibanNodes := ["...2150"], accountAmountNodes := ["€", "100.00", "200.00"],
                   avatarNodes := ["Alfonso"] } }

/-! ## Helper lemmas -/

theorem updateAllNumeric_of_no_qualifying (ns : List String) (v : String)
    (h : ns.any (fun t => qualifies (jsTrim t)) = false) :
    updateAllNumeric ns v = ns := by
  induction ns with
  | nil => rfl
  | cons t ts ih =>
    simp only [List.any_cons, Bool.or_eq_false_iff] at h
    simp only [updateAllNumeric, List.map_cons] at ih ⊢
    rw [if_neg (by simp [h.1]), ih h.2]

theorem updateAllNumeric_idem (ns : List String) (v : String) :
    updateAllNumeric (updateAllNumeric ns v) v = updateAllNumeric ns v := by
  simp only [updateAllNumeric, List.map_map]
  apply List.map_congr_left
  intro t _
  by_cases h : qualifies (jsTrim t) = true
  · simp only [Function.comp_apply, if_pos h]
    by_cases h' : qualifies (jsTrim v) = true <;> simp [h']
  · simp [Function.comp_apply, if_neg h]

theorem setAll_idem (ns : List String) (v : String) :
    setAll (setAll ns v) v = setAll ns v := by
  simp [setAll, List.map_map]

theorem setFirst_idem (ns : List String) (v : String) :
    setFirst (setFirst ns v) v = setFirst ns v := by
  cases ns <;> rfl

theorem updateFirstNumeric_append (pre post : List String) (t v : String)
    (hpre : ∀ x ∈ pre, qualifies (jsTrim x) = false)
    (ht : qualifies (jsTrim t) = true) :
    updateFirstNumeric (pre ++ t :: post) v = pre ++ v :: post := by
  induction pre with
  | nil => simp [updateFirstNumeric, ht]
  | cons p ps ih =>
    have hp := hpre p (List.mem_cons_self p ps)
    simp only [List.cons_append, updateFirstNumeric]
    rw [if_neg (by simp [hp])]
    simp only [List.cons.injEq, true_and]
    exact ih (fun x hx => hpre x (List.mem_cons_of_mem p hx))

theorem updateFirstNumeric_idem (ns : List String) (v : String)
    (h1 : jsTrim v = v) (h2 : qualifies v = true) :
    updateFirstNumeric (updateFirstNumeric ns v) v = updateFirstNumeric ns v := by
  induction ns with
  | nil => rfl
  | cons t ts ih =>
    by_cases h : qualifies (jsTrim t) = true
    · simp only [updateFirstNumeric, if_pos h]
      simp [updateFirstNumeric, h1, h2]
    · simp only [updateFirstNumeric, if_neg h]
      simp only [updateFirstNumeric, if_neg h, List.cons.injEq, true_and]
      exact ih

theorem extractFirstNumeric_updateFirstNumeric (ns : List String) (v dflt : String)
    (h1 : jsTrim v = v) (h2 : qualifies v = true)
    (h3 : ns.any (fun t => qualifies (jsTrim t)) = true) :
    extractFirstNumeric (updateFirstNumeric ns v) dflt = v := by
  induction ns with
  | nil => simp at h3
  | cons t ts ih =>
    by_cases h : qualifies (jsTrim t) = true
    · simp only [updateFirstNumeric, if_pos h, extractFirstNumeric]
      rw [List.find?_cons_of_pos _ (by simp [h1, h2])]
      simp [h1]
    · have h3' : (ts.any fun x => qualifies (jsTrim x)) = true := by
        simp only [List.any_cons, Bool.or_eq_true] at h3
        exact h3.resolve_left h
      simp only [updateFirstNumeric, if_neg h, extractFirstNumeric]
      rw [List.find?_cons_of_neg _ (by simpa using h)]
      simpa [extractFirstNumeric] using ih h3'

theorem avUpdateNode_idem (n t : String) :
    avUpdateNode n (avUpdateNode n t) = avUpdateNode n t := by
  by_cases h : ((jsTrim t != "") && (jsTrim t != n)) = true
  · by_cases h' : ((jsTrim n != "") && (jsTrim n != n)) = true
    · simp [avUpdateNode, h, h']
    · simp [avUpdateNode, h, h']
  · simp [avUpdateNode, h]

theorem avatar_map_idem (n : String) (ns : List String) :
    (ns.map (avUpdateNode n)).map (avUpdateNode n) = ns.map (avUpdateNode n) := by
  simp only [List.map_map]
  exact List.map_congr_left (fun t _ => by
    simpa [Function.comp_apply] using avUpdateNode_idem n t)

theorem updateAvatarFile_fst_idem (n : String) (ns : List String) :
    (updateAvatarFile n (updateAvatarFile n ns).1).1 = (updateAvatarFile n ns).1 := by
  by_cases he : ns.isEmpty = true
  · simp [updateAvatarFile, he]
  · by_cases hc : avChanged n ns = true
    · simp only [updateAvatarFile, he, hc, Bool.false_eq_true, if_false, if_true]
      by_cases he' : (ns.map (avUpdateNode n)).isEmpty = true
      · simp [he']
      · by_cases hc' : avChanged n (ns.map (avUpdateNode n)) = true
        · simp only [he', hc', Bool.false_eq_true, if_false, if_true]
          exact avatar_map_idem n ns
        · simp [he', hc']
    · simp [updateAvatarFile, he, hc]

theorem updateAvatarGlobFS_idem (fs : FileSystem) (n : String) :
    updateAvatarGlobFS (updateAvatarGlobFS fs n) n = updateAvatarGlobFS fs n := by
  simp [updateAvatarGlobFS, updateAvatarFile_fst_idem]

theorem updateCardDigitsGlobally_spec (fs : FileSystem) (v : String) :
    ((updateCardDigitsGlobally saveNever fs v).1.openbank.cardDigitsNodes
        = setAll fs.openbank.cardDigitsNodes (formatCardDigits v))
    ∧ (updateCardDigitsGlobally saveNever fs v).1.transfers.ibanNodes
        = setAll fs.transfers.ibanNodes (formatCardDigits v)
    ∧ (updateCardDigitsGlobally saveNever fs v).1.cards = fs.cards
    ∧ (updateCardDigitsGlobally saveNever fs v).1.directDebits = fs.directDebits := by
  simp only [updateCardDigitsGlobally, saveNever, Bool.false_eq_true, if_false]
  by_cases h1 : fs.openbank.cardDigitsNodes.isEmpty = true
  · have e1 : fs.openbank.cardDigitsNodes = [] := by
      simpa [List.isEmpty_iff] using h1
    by_cases h2 : fs.transfers.ibanNodes.isEmpty = true
    · have e2 : fs.transfers.ibanNodes = [] := by
        simpa [List.isEmpty_iff] using h2
      simp [h1, h2, e1, e2, setAll]
    · simp [h1, h2, e1, setAll]
  · by_cases h2 : fs.transfers.ibanNodes.isEmpty = true
    · have e2 : fs.transfers.ibanNodes = [] := by
        simpa [List.isEmpty_iff] using h2
      simp [h1, h2, e2, setAll]
    · simp [h1, h2]

theorem updateAccountBalanceGlobally_frame (fs : FileSystem) (v : String) :
    (updateAccountBalanceGlobally saveNever fs v).1.directDebits = fs.directDebits
    ∧ (updateAccountBalanceGlobally saveNever fs v).1.cards = fs.cards
    ∧ (updateAccountBalanceGlobally saveNever fs v).1.transfers
        = { fs.transfers with accountAmountNodes :=
              (updateAllNumeric fs.transfers.accountAmountNodes v) } := by
  simp only [updateAccountBalanceGlobally, saveNever, Bool.false_eq_true, if_false]
  by_cases h1 : fs.openbank.accountTotalNodes.any (fun t => qualifies (jsTrim t)) = true
  · by_cases h2 : fs.transfers.accountAmountNodes.any (fun t => qualifies (jsTrim t)) = true
    · simp [h1, h2]
    · simp [h1, h2, updateAllNumeric_of_no_qualifying _ v (Bool.not_eq_true _ ▸ h2)]
  · by_cases h2 : fs.transfers.accountAmountNodes.any (fun t => qualifies (jsTrim t)) = true
    · simp [h1, h2]
    · simp [h1, h2, updateAllNumeric_of_no_qualifying _ v (Bool.not_eq_true _ ▸ h2)]

/-- Route-level characterization: an openbank update carrying only a nonempty
`accountTotalBalance` globally rewrites the transfers amounts, leaves
direct debits and cards alone, and finally persists the locally-updated
(stale) openbank document over whatever `updateAccountBalanceGlobally`
had written to `Openbank.html`. -/
theorem postUpdate_ob_atb (fs : FileSystem) (v : String) (hv : (v != "") = true) :
    postUpdateBalances fs "openbank" { accountTotalBalance := some v } =
      .ok { openbank := updateOpenbankValues fs.openbank { accountTotalBalance := some v }
            directDebits := fs.directDebits
            cards := fs.cards
            transfers := { fs.transfers with accountAmountNodes :=
                             (updateAllNumeric fs.transfers.accountAmountNodes v) } } := by
  obtain ⟨hd, hc, ht⟩ := updateAccountBalanceGlobally_frame fs v
  simp [postUpdateBalances, loadHTMLFile, updateBalanceValues, isGiven, hv,
        workingSetAfterGlobals, applyLocalUpdate, saveHTMLFile, jsTemplate, hd, hc, ht]

theorem updateOpenbankValues_atb_idem (d : OpenbankDoc) (v : String)
    (h1 : jsTrim v = v) (h2 : qualifies v = true) :
    updateOpenbankValues (updateOpenbankValues d { accountTotalBalance := some v })
        { accountTotalBalance := some v }
      = updateOpenbankValues d { accountTotalBalance := some v } := by
  simp [updateOpenbankValues, updateFirstNumeric_idem _ _ h1 h2, setAll_idem]

/-- Modelled from the spec's words for the card-digit formatting rule: "strip
any leading dots from it and prepend `...`" — leading dots removed one at a
time by recursion (to be compared with the code's regex `replace(/^\.+/, "")`
embedded in `jsStripLeadingDots`). -/
def specStripLeadingDots : List Char → List Char
  | [] => []
  | c :: cs => if c = '.' then specStripLeadingDots cs else c :: cs

theorem dropWhile_dot_eq_specStrip (l : List Char) :
    l.dropWhile (fun c => c = '.') = specStripLeadingDots l := by
  induction l with
  | nil => rfl
  | cons c cs ih =>
    by_cases h : c = '.' <;> simp [List.dropWhile, specStripLeadingDots, h, ih]

/-- Full characterization of `updateCardDigitsGlobally` under normal operation:
exactly the openbank card-digit nodes and the transfers IBAN nodes receive the
formatted value; the cards and direct-debits files are untouched. -/
theorem updateCardDigitsGlobally_full (fs : FileSystem) (v : String) :
    (updateCardDigitsGlobally saveNever fs v).1 =
      { fs with
        openbank := { fs.openbank with cardDigitsNodes :=
                        (setAll fs.openbank.cardDigitsNodes (formatCardDigits v)) }
        transfers := { fs.transfers with ibanNodes :=
                         (setAll fs.transfers.ibanNodes (formatCardDigits v)) } } := by
  obtain ⟨ob, dd, cd, tr⟩ := fs
  obtain ⟨a1, a2, a3, a4, a5, a6, a7, a8⟩ := ob
  obtain ⟨t1, t2, t3⟩ := tr
  simp only [updateCardDigitsGlobally, saveNever, Bool.false_eq_true, if_false]
  by_cases h1 : a8.isEmpty = true
  · have e1 : a8 = [] := by simpa [List.isEmpty_iff] using h1
    subst e1
    by_cases h2 : t1.isEmpty = true
    · have e2 : t1 = [] := by simpa [List.isEmpty_iff] using h2
      subst e2
      simp [setAll]
    · simp [h2, setAll]
  · by_cases h2 : t1.isEmpty = true
    · have e2 : t1 = [] := by simpa [List.isEmpty_iff] using h2
      subst e2
      simp [h1, setAll]
    · simp [h1, h2]

/-- Route-level characterization of an openbank update carrying only a
nonempty `cardLastDigits`: the global pass formats and writes the digits into
`Openbank.html` and `Openbank-transfers.html`, the field is then removed from
the working set, and the route's final save overwrites `Openbank.html` with
the stale in-memory document — so the openbank card digits revert, and only
the unconditional monthly-expenses template write survives locally. -/
theorem postUpdate_ob_card (fs : FileSystem) (v : String) (hv : (v != "") = true) :
    postUpdateBalances fs "openbank" { cardLastDigits := some v } =
      .ok { openbank := { fs.openbank with monthlyExpNodes :=
                            (setAll fs.openbank.monthlyExpNodes ("undefined" ++ " €")) }
            directDebits := fs.directDebits
            cards := fs.cards
            transfers := { fs.transfers with ibanNodes :=
                             (setAll fs.transfers.ibanNodes (formatCardDigits v)) } } := by
  simp [postUpdateBalances, loadHTMLFile, updateBalanceValues, isGiven, hv,
        workingSetAfterGlobals, applyLocalUpdate, saveHTMLFile, jsTemplate,
        updateCardDigitsGlobally_full, updateOpenbankValues]

/-- The openbank document in which no field's locate rule matches any node. -/
def emptyOB : OpenbankDoc :=
  { accountTotalNodes := [], individualNodes := [], totalSavingsNodes := []
    monthlyExpNodes := [], savingsSection := none, lendingSection := none
    avatarNodes := [], cardDigitsNodes := [] }

/-- The direct-debits document with no matching nodes. -/
def emptyDD : DirectDebitsDoc :=
  { accountsBalanceNodes := [], ibanNodes := [], availableAmountNodes := []
    availableCurrencyNodes := [], avatarNodes := [] }

/-- The cards document with no matching nodes. -/
def emptyCards : CardsDoc :=
  { cardNumberNodes := [], avatarNodes := [] }

/-- The transfers document with no matching nodes. -/
def emptyTransfers : TransfersDoc :=
  { ibanNodes := [], accountAmountNodes := [], avatarNodes := [] }

/-! ## Claims -/

/-- **C1, counterexample.**  The claim says an update that sets the global
card-digit field from the main (openbank) document writes bare `"2150"`
(prefix stripped) into the cards document.  In fact `updateCardDigitsGlobally`
iterates over `["openbank", "transfers"]` only: after the update the cards
document still holds its old `"1704"`, not `"2150"`. -/
theorem cards_not_a_card_digit_target :
    (match postUpdateBalances sampleFS "openbank" { cardLastDigits := some "2150" } with
     | .ok fs1 => fs1.cards.cardNumberNodes
     | .error _ => []) = ["1704"]
    ∧ (["1704"] : List String) ≠ ["2150"] := by
  exact ⟨by decide, by decide⟩

/-- **C1, amended.**  A card-digit update propagates to exactly the openbank
and transfers files, each receiving the dotted-prefix format (`"2150"`
becomes `"...2150"`); the cards and direct-debits documents are not
propagation targets, and the cards document shows bare digits only because
its own local rule writes the incoming value verbatim.  Moreover, at the end
of the full request the route re-saves the stale in-memory openbank document,
so the issuing file's card digits revert to their prior text and only the
transfers file keeps the formatted value. -/
theorem card_digit_propagation_targets (fs : FileSystem) (v : String)
    (d : CardsDoc) (hv : (v != "") = true) :
    (updateCardDigitsGlobally saveNever fs v).1 =
      { fs with
        openbank := { fs.openbank with cardDigitsNodes :=
                        (setAll fs.openbank.cardDigitsNodes (formatCardDigits v)) }
        transfers := { fs.transfers with ibanNodes :=
                         (setAll fs.transfers.ibanNodes (formatCardDigits v)) } }
    ∧ formatCardDigits "2150" = "...2150"
    ∧ (updateCardsValues d { cardLastDigits := some "2150" }).cardNumberNodes
        = setAll d.cardNumberNodes "2150"
    ∧ postUpdateBalances fs "openbank" { cardLastDigits := some v } =
        .ok { openbank := { fs.openbank with monthlyExpNodes :=
                              (setAll fs.openbank.monthlyExpNodes ("undefined" ++ " €")) }
              directDebits := fs.directDebits
              cards := fs.cards
              transfers := { fs.transfers with ibanNodes :=
                               (setAll fs.transfers.ibanNodes (formatCardDigits v)) } } := by
  refine ⟨updateCardDigitsGlobally_full fs v, by decide, ?_, postUpdate_ob_card fs v hv⟩
  simp [updateCardsValues, isGiven, jsTemplate]

/-- **C1, witness.** -/
theorem card_digit_propagation_targets_witness :
    ("2150" != "") = true
    ∧ (updateCardDigitsGlobally saveNever sampleFS "2150").1.transfers.ibanNodes = ["...2150"]
    ∧ (updateCardsValues sampleFS.cards { cardLastDigits := some "2150" }).cardNumberNodes
        = ["2150"] := by
  have h := card_digit_propagation_targets sampleFS "2150" sampleFS.cards (by decide)
  refine ⟨by decide, ?_, ?_⟩
  · rw [h.1]; decide
  · exact (h.2.2.1).trans (by decide)

/-- **C2, counterexample.**  On a document where no locate rule matches, the
claim says every extracted field equals its registered default.  But the
extractor's hardcoded fallback for `monthlyExpenses` is `"0.00"`, while the
field registry (`FIELD_CONFIGS.openbank.monthlyExpenses.defaultValue`)
registers `"0.00 €"`. -/
theorem monthly_expenses_default_mismatch :
    List.lookup "monthlyExpenses" (extractOpenbankValues emptyOB) = some "0.00"
    ∧ List.lookup "monthlyExpenses" openbankRegistryDefaults = some "0.00 €"
    ∧ (some "0.00" : Option String) ≠ some "0.00 €" := by
  exact ⟨by decide, by decide, by decide⟩

/-- **C2, amended.**  For every document type, extraction on a document with
zero matching nodes never throws and returns a complete record of the
extractor's hardcoded fallbacks.  These coincide with the registered
defaults for every field except openbank's `monthlyExpenses`, where the
extractor falls back to `"0.00"` although the registry records `"0.00 €"`. -/
theorem extract_no_match_defaults
    (dOB : OpenbankDoc) (dDD : DirectDebitsDoc) (dC : CardsDoc) (dT : TransfersDoc)
    (hOB : dOB = emptyOB) (hDD : dDD = emptyDD) (hC : dC = emptyCards)
    (hT : dT = emptyTransfers) :
    extractOpenbankValues dOB =
      [("accountTotalBalance", "430.26"), ("individualAccountBalance", "0.00"),
       ("totalSavingsBalance", "0.00"), ("monthlyExpenses", "0.00"),
       ("savingsInvestmentsTotal", "0.00"), ("totalLending", "0.00"),
       ("avatarName", "Alfonso"), ("cardLastDigits", "...2150")]
    ∧ extractDirectDebitsValues dDD =
      [("accountsBalanceAmount", "0.00"), ("cardLastDigits", "...2150"),
       ("availableAmount", "0.00"), ("availableCurrency", "€"),
       ("avatarName", "Alfonso")]
    ∧ extractCardsValues dC =
      [("cardLastDigits", "1704"), ("avatarName", "Alfonso")]
    ∧ extractTransfersValues dT =
      [("cardLastDigits", "...2150"), ("accountBalance", "0.00"),
       ("avatarName", "Alfonso")]
    ∧ extractBalanceValues { openbank := dOB, directDebits := dDD,
                             cards := dC, transfers := dT } "openbank"
        = .ok (extractOpenbankValues dOB) := by
  subst hOB hDD hC hT
  exact ⟨by decide, by decide, by decide, by decide, rfl⟩

/-- **C2, witness.** -/
theorem extract_no_match_defaults_witness :
    List.lookup "accountTotalBalance" (extractOpenbankValues emptyOB) = some "430.26"
    ∧ List.lookup "cardLastDigits" (extractCardsValues emptyCards) = some "1704" := by
  have h := extract_no_match_defaults emptyOB emptyDD emptyCards emptyTransfers
    rfl rfl rfl rfl
  rw [h.1, h.2.2.1]
  exact ⟨by decide, by decide⟩

/-- **C3, confirmed.**  The card-digit transform is a function of the incoming
value alone: if the value already starts with the literal `"..."` it is
written unchanged, otherwise all leading dots are stripped and `"..."` is
prepended (the code's regex `replace(/^\.+/, "")` agrees with the spec-level
recursive dot-stripping `specStripLeadingDots`). -/
theorem card_digit_format_deterministic (v : String) :
    formatCardDigits v =
      (if strStartsWith v "..." then v
       else "..." ++ String.mk (specStripLeadingDots v.toList)) := by
  unfold formatCardDigits jsStripLeadingDots
  rw [dropWhile_dot_eq_specStrip]

/-- **C4, counterexample.**  `accountTotalBalance` is a global-scoped field
(it triggers `updateAccountBalanceGlobally` on an openbank request with a
nonempty value), yet it is *not* removed from the working set afterwards: the
record handed to the openbank local rules still contains it, so it is applied
a second time under the local first-match rule. -/
theorem account_total_not_removed :
    isGiven (some "1000.50") = true
    ∧ (workingSetAfterGlobals "openbank"
        { accountTotalBalance := some "1000.50" }).accountTotalBalance = some "1000.50"
    ∧ (some "1000.50" : Option String) ≠ none := by
  exact ⟨by decide, by decide, by decide⟩

/-- **C4, amended.**  After the global branches run, `cardLastDigits` (on
openbank/transfers requests) and `avatarName` (on any request) are removed
from the working set, but `accountTotalBalance` always survives into the
local phase — its second, local application is in fact what persists the
value, since the route's final save overwrites the globally-written file. -/
theorem working_set_after_globals (ft : String) (r : NewBalances) :
    (workingSetAfterGlobals ft r).cardLastDigits
        = (if (ft == "openbank" || ft == "transfers") && isGiven r.cardLastDigits
           then none else r.cardLastDigits)
    ∧ (workingSetAfterGlobals ft r).avatarName
        = (if isGiven r.avatarName then none else r.avatarName)
    ∧ (workingSetAfterGlobals ft r).accountTotalBalance = r.accountTotalBalance := by
  unfold workingSetAfterGlobals
  by_cases h1 : ((ft == "openbank" || ft == "transfers") && isGiven r.cardLastDigits) = true
  · by_cases h2 : isGiven r.avatarName = true <;> simp [h1, h2]
  · by_cases h2 : isGiven r.avatarName = true <;> simp [h1, h2]

/-- **C5, confirmed.**  A repeated-amount field (the transfers account
amounts) writes the new value into *every* node passing the
numeric-and-non-currency filter, while a single-match field (the openbank
total balance) writes only the first qualifying node and leaves every
subsequent node — qualifying or not — with its prior text. -/
theorem multi_match_vs_first_match
    (dT : TransfersDoc) (dOB : OpenbankDoc) (v w t : String)
    (pre post : List String)
    (hv : (v != "") = true)
    (hpre : ∀ x ∈ pre, qualifies (jsTrim x) = false)
    (ht : qualifies (jsTrim t) = true)
    (hOB : dOB.accountTotalNodes = pre ++ t :: post) :
    (updateTransfersValues dT { accountBalance := some v }).accountAmountNodes
        = dT.accountAmountNodes.map (fun s => if qualifies (jsTrim s) then v else s)
    ∧ (updateOpenbankValues dOB { accountTotalBalance := some w }).accountTotalNodes
        = pre ++ w :: post := by
  constructor
  · simp [updateTransfersValues, isGiven, hv, jsTemplate, updateAllNumeric]
  · simp [updateOpenbankValues, hOB,
          updateFirstNumeric_append pre post t w hpre ht]

/-- **C5, witness.** -/
theorem multi_match_vs_first_match_witness :
    (updateTransfersValues sampleFS.transfers
        { accountBalance := some "7.77" }).accountAmountNodes = ["€", "7.77", "7.77"]
    ∧ (updateOpenbankValues sampleOB
        { accountTotalBalance := some "555.55" }).accountTotalNodes
      = ["€", "555.55", "99.00"] := by
  have h := multi_match_vs_first_match sampleFS.transfers sampleOB
    "7.77" "555.55" "430.26" ["€"] ["99.00"]
    (by decide) (by decide) (by decide) (by decide)
  exact ⟨h.1.trans (by decide), h.2⟩

/-- **C6, counterexample.**  The claim says a document containing a matching
node whose text differs from the new name has *all* matching nodes rewritten
to the new name.  But a node with empty text differs from `"Alice"` and is
nevertheless left empty: the file `["", "Bob"]` becomes `["", "Alice"]`, not
`["Alice", "Alice"]` (it is still reported as updated). -/
theorem avatar_empty_node_not_rewritten :
    updateAvatarFile "Alice" ["", "Bob"] = (["", "Alice"], FileOutcome.updated)
    ∧ (["", "Alice"] : List String) ≠ ["Alice", "Alice"] := by
  exact ⟨by decide, by decide⟩

/-- **C6, amended.**  For every name change over a set of scanned documents:
a file is rewritten and reported updated exactly when it contains a node with
*nonempty* trimmed text differing from the new name, and then only those
nodes are rewritten (empty-text nodes are left as they are); a file with no
matching nodes, or whose matching nodes all have empty text or already equal
the new name, is left untouched and reported skipped.  The reported counters
are the numbers of files in each class. -/
theorem avatar_name_propagation (n : String) (files : List (List String)) :
    (updateAvatarNameGlobally n files).1
        = files.map (fun f => updateAvatarFile n f)
    ∧ (updateAvatarNameGlobally n files).2.1
        = (files.filter (fun f => avChanged n f)).length
    ∧ (updateAvatarNameGlobally n files).2.2
        = (files.filter (fun f => !(avChanged n f))).length
    ∧ ∀ f : List String, updateAvatarFile n f =
        (if avChanged n f then (f.map (avUpdateNode n), FileOutcome.updated)
         else (f, FileOutcome.skipped)) := by
  have hfile : ∀ f : List String, updateAvatarFile n f =
      (if avChanged n f then (f.map (avUpdateNode n), FileOutcome.updated)
       else (f, FileOutcome.skipped)) := by
    intro f
    by_cases he : f.isEmpty = true
    · have e : f = [] := by simpa [List.isEmpty_iff] using he
      subst e
      simp [updateAvatarFile, avChanged]
    · by_cases hc : avChanged n f = true
      · simp [updateAvatarFile, he, hc]
      · simp [updateAvatarFile, he, hc]
  refine ⟨?_, ?_, ?_, hfile⟩
  · induction files with
    | nil => rfl
    | cons f fsr ih =>
      simp only [updateAvatarNameGlobally, List.map_cons]
      rw [ih]
  · induction files with
    | nil => rfl
    | cons f fsr ih =>
      simp only [updateAvatarNameGlobally, List.filter_cons]
      rw [hfile f]
      by_cases hc : avChanged n f = true
      · simp [hc, ih, Nat.add_comm]
      · simp [hc, ih]
  · induction files with
    | nil => rfl
    | cons f fsr ih =>
      simp only [updateAvatarNameGlobally, List.filter_cons]
      rw [hfile f]
      by_cases hc : avChanged n f = true
      · simp [hc, ih]
      · simp [hc, ih, Nat.add_comm]

/-- **C7, counterexample.**  With a simulated write error on the first of the
two card-digit targets, the second target is still updated, but the reported
counters are `(updated, skipped) = (1, 0)`: the failed target is counted in
*neither* counter (the `catch` of `updateCardDigitsGlobally` only logs), so
the operation does not enumerate one success and one failure. -/
theorem card_digit_failure_not_counted :
    (updateCardDigitsGlobally (fun ft => ft == "openbank") sampleFS "9999").2 = (1, 0)
    ∧ (updateCardDigitsGlobally (fun ft => ft == "openbank") sampleFS "9999").1.openbank
        = sampleFS.openbank
    ∧ (updateCardDigitsGlobally (fun ft => ft == "openbank") sampleFS "9999").1.transfers.ibanNodes
        = ["...9999"]
    ∧ ((1, 0) : Nat × Nat) ≠ (1, 1) := by
  exact ⟨by decide, by decide, by decide, by decide⟩

/-- **C7, amended.**  Each target of a multi-file global update is processed
independently: the transfers outcome depends only on the transfers file and
on whether the transfers save fails, never on the openbank failure (and vice
versa the openbank file is untouched by its own failed save).  Neither
function throws for a per-target failure.  With a write error on the first
target only, the second target is still updated; `updateAccountBalanceGlobally`
counts the failed target as skipped (counters `(1, 1)`), while
`updateCardDigitsGlobally` counts it in neither counter (counters `(1, 0)`). -/
theorem global_update_per_target_independence
    (f g : String → Bool) (fs : FileSystem) (v : String)
    (hfg : f "transfers" = g "transfers")
    (hq1 : fs.openbank.accountTotalNodes.any (fun t => qualifies (jsTrim t)) = true)
    (hq2 : fs.transfers.accountAmountNodes.any (fun t => qualifies (jsTrim t)) = true)
    (hc1 : fs.openbank.cardDigitsNodes.isEmpty = false)
    (hc2 : fs.transfers.ibanNodes.isEmpty = false) :
    (updateCardDigitsGlobally f fs v).1.transfers
        = (updateCardDigitsGlobally g fs v).1.transfers
    ∧ (updateAccountBalanceGlobally f fs v).1.transfers
        = (updateAccountBalanceGlobally g fs v).1.transfers
    ∧ (updateCardDigitsGlobally (fun ft => ft == "openbank") fs v).1.openbank
        = fs.openbank
    ∧ (updateCardDigitsGlobally (fun ft => ft == "openbank") fs v).1.transfers.ibanNodes
        = setAll fs.transfers.ibanNodes (formatCardDigits v)
    ∧ (updateCardDigitsGlobally (fun ft => ft == "openbank") fs v).2 = (1, 0)
    ∧ (updateAccountBalanceGlobally (fun ft => ft == "openbank") fs v).2 = (1, 1) := by
  refine ⟨?_, ?_, ?_, ?_, ?_, ?_⟩
  · simp only [updateCardDigitsGlobally]
    by_cases h1 : fs.openbank.cardDigitsNodes.isEmpty = true <;>
      by_cases hf : f "openbank" = true <;>
        by_cases hg : g "openbank" = true <;>
          by_cases h2 : fs.transfers.ibanNodes.isEmpty = true <;>
            by_cases h3 : g "transfers" = true <;>
              simp [h1, hf, hg, h2, h3, hfg]
  · simp only [updateAccountBalanceGlobally]
    by_cases h1 : fs.openbank.accountTotalNodes.any (fun t => qualifies (jsTrim t)) = true <;>
      by_cases hf : f "openbank" = true <;>
        by_cases hg : g "openbank" = true <;>
          by_cases h2 : fs.transfers.accountAmountNodes.any (fun t => qualifies (jsTrim t)) = true <;>
            by_cases h3 : g "transfers" = true <;>
              simp [h1, hf, hg, h2, h3, hfg]
  · simp [updateCardDigitsGlobally, hc1, hc2]
  · simp [updateCardDigitsGlobally, hc1, hc2]
  · simp [updateCardDigitsGlobally, hc1, hc2]
  · simp [updateAccountBalanceGlobally, hq1, hq2]

/-- **C7, witness.** -/
theorem global_update_per_target_independence_witness :
    (updateCardDigitsGlobally (fun ft => ft == "openbank") sampleFS "9876").2 = (1, 0)
    ∧ (updateAccountBalanceGlobally (fun ft => ft == "openbank") sampleFS "3.50").2 = (1, 1)
    ∧ (updateCardDigitsGlobally (fun ft => ft == "openbank") sampleFS "9876").1.transfers.ibanNodes
        = ["...9876"] := by
  have h1 := global_update_per_target_independence (fun ft => ft == "openbank")
    (fun _ => false) sampleFS "9876" (by decide) (by decide) (by decide)
    (by decide) (by decide)
  have h2 := global_update_per_target_independence (fun ft => ft == "openbank")
    (fun _ => false) sampleFS "3.50" (by decide) (by decide) (by decide)
    (by decide) (by decide)
  exact ⟨h1.2.2.2.2.1, h2.2.2.2.2.2, h1.2.2.2.1.trans (by decide)⟩

/-- **C8, counterexample.**  The round-trip claim is quantified over *every*
incoming record, but a value that fails the numeric filter breaks it: writing
`accountTotalBalance := "abc"` (whose `format` is the identity) into the
sample document and extracting again yields `"99.00"` — the next numeric
node — not `"abc"`. -/
theorem roundtrip_fails_for_non_numeric :
    (match postUpdateBalances sampleFS "openbank" { accountTotalBalance := some "abc" } with
     | .ok fs1 => List.lookup "accountTotalBalance" (extractOpenbankValues fs1.openbank)
     | .error _ => none) = some "99.00"
    ∧ ("99.00" : String) ≠ "abc" := by
  exact ⟨by decide, by decide⟩

/-- **C8, amended.**  The round-trip holds for a first-match local field
provided the incoming value is trimmed and itself passes the
numeric-and-non-currency filter, and the document has at least one qualifying
node: `update` followed by `extract` on the persisted openbank document
returns exactly the written value (the field's `format` is the identity). -/
theorem roundtrip_first_match (fs : FileSystem) (v : String)
    (h1 : jsTrim v = v) (h2 : qualifies v = true)
    (h3 : fs.openbank.accountTotalNodes.any (fun t => qualifies (jsTrim t)) = true) :
    ∃ fs1, postUpdateBalances fs "openbank" { accountTotalBalance := some v } = .ok fs1
      ∧ (extractOpenbankValues fs1.openbank).head? = some ("accountTotalBalance", v) := by
  have hv : (v != "") = true := by
    have h2' := h2
    simp only [qualifies, Bool.and_eq_true] at h2'
    exact h2'.1.1
  refine ⟨_, postUpdate_ob_atb fs v hv, ?_⟩
  simp only [extractOpenbankValues, updateOpenbankValues, List.head?_cons,
    Option.some.injEq, Prod.mk.injEq, true_and]
  exact extractFirstNumeric_updateFirstNumeric _ _ _ h1 h2 h3

/-- **C8, witness.** -/
theorem roundtrip_first_match_witness :
    jsTrim "1000.50" = "1000.50"
    ∧ qualifies "1000.50" = true
    ∧ (∃ fs1, postUpdateBalances sampleFS "openbank"
          { accountTotalBalance := some "1000.50" } = .ok fs1
        ∧ (extractOpenbankValues fs1.openbank).head?
            = some ("accountTotalBalance", "1000.50")) := by
  exact ⟨by decide, by decide,
    roundtrip_first_match sampleFS "1000.50" (by decide) (by decide) (by decide)⟩

/-- **C9, counterexample.**  Idempotence is claimed for *every* record, but a
non-qualifying value breaks it: applying `accountTotalBalance := "abc"` once
turns the sample total-balance nodes into `["€", "abc", "99.00"]`; the second
application no longer finds `"abc"` numeric and overwrites the *next*
qualifying node, giving `["€", "abc", "abc"]`. -/
theorem update_twice_differs_for_non_numeric :
    (postUpdateBalances sampleFS "openbank" { accountTotalBalance := some "abc" }).bind
        (fun fs1 => postUpdateBalances fs1 "openbank" { accountTotalBalance := some "abc" })
      ≠ postUpdateBalances sampleFS "openbank" { accountTotalBalance := some "abc" } := by
  intro h
  exact absurd (congrArg Except.toOption h) (by decide)

/-- **C9, amended.**  Applying the same update twice leaves the same final
state as applying it once, provided the value supplied for a first-match
numeric field is trimmed and passes the numeric-and-non-currency filter
(shown for an openbank request carrying `accountTotalBalance`). -/
theorem update_idempotent_for_qualifying (fs : FileSystem) (v : String)
    (h1 : jsTrim v = v) (h2 : qualifies v = true) :
    (postUpdateBalances fs "openbank" { accountTotalBalance := some v }).bind
        (fun fs1 => postUpdateBalances fs1 "openbank" { accountTotalBalance := some v })
      = postUpdateBalances fs "openbank" { accountTotalBalance := some v } := by
  have hv : (v != "") = true := by
    have h2' := h2
    simp only [qualifies, Bool.and_eq_true] at h2'
    exact h2'.1.1
  rw [postUpdate_ob_atb fs v hv]
  simp only [Except.bind]
  rw [postUpdate_ob_atb _ v hv]
  simp only [Except.ok.injEq]
  simp [updateOpenbankValues_atb_idem _ _ h1 h2, updateAllNumeric_idem]

/-- **C9, witness.** -/
theorem update_idempotent_for_qualifying_witness :
    jsTrim "250.00" = "250.00"
    ∧ qualifies "250.00" = true
    ∧ (postUpdateBalances sampleFS "openbank" { accountTotalBalance := some "250.00" }).bind
        (fun fs1 => postUpdateBalances fs1 "openbank" { accountTotalBalance := some "250.00" })
      = postUpdateBalances sampleFS "openbank" { accountTotalBalance := some "250.00" } := by
  exact ⟨by decide, by decide,
    update_idempotent_for_qualifying sampleFS "250.00" (by decide) (by decide)⟩

/-- **C10, confirmed.**  For a file type outside
`{openbank, directDebits, cards, transfers}`, `extractBalanceValues` and the
final dispatch of `updateBalanceValues` both throw
`Unknown file type: <fileType>` instead of returning defaults or silently
skipping, and the route's update request fails (via `loadHTMLFile`, whose
`catch` rebuilds the message from the out-of-scope `fileName`, surfacing
"fileName is not defined"); for the four registered types both extraction and
the update route always succeed. -/
theorem unknown_file_type_rejected (ft : String) (hft : ft ∉ KNOWN_FILE_TYPES)
    (fs : FileSystem) (doc : LoadedDoc) (r : NewBalances) :
    extractBalanceValues fs ft = .error ("Unknown file type: " ++ ft)
    ∧ (updateBalanceValues doc r ft fs).2 = .error ("Unknown file type: " ++ ft)
    ∧ postUpdateBalances fs ft r = .error "fileName is not defined"
    ∧ ∀ kt ∈ KNOWN_FILE_TYPES, (extractBalanceValues fs kt).toOption.isSome = true
        ∧ (postUpdateBalances fs kt r).toOption.isSome = true := by
  simp only [KNOWN_FILE_TYPES, List.mem_cons, List.not_mem_nil, or_false] at hft
  push_neg at hft
  obtain ⟨n1, n2, n3, n4⟩ := hft
  have b1 : (ft == "openbank") = false := by simpa using n1
  have b2 : (ft == "directDebits") = false := by simpa using n2
  have b3 : (ft == "cards") = false := by simpa using n3
  have b4 : (ft == "transfers") = false := by simpa using n4
  refine ⟨?_, ?_, ?_, ?_⟩
  · simp [extractBalanceValues, b1, b2, b3, b4]
  · simp [updateBalanceValues, applyLocalUpdate, b1, b2, b3, b4]
  · simp [postUpdateBalances, loadHTMLFile, b1, b2, b3, b4]
  · intro kt hkt
    simp only [KNOWN_FILE_TYPES, List.mem_cons, List.not_mem_nil, or_false] at hkt
    rcases hkt with h | h | h | h <;> subst h <;>
      constructor <;>
        cases doc <;>
          simp [extractBalanceValues, postUpdateBalances, loadHTMLFile,
            updateBalanceValues, applyLocalUpdate, Except.toOption]

/-- **C10, witness.** -/
theorem unknown_file_type_rejected_witness :
    extractBalanceValues sampleFS "invoices" = .error ("Unknown file type: " ++ "invoices")
    ∧ postUpdateBalances sampleFS "invoices" {} = .error "fileName is not defined"
    ∧ (extractBalanceValues sampleFS "openbank").toOption.isSome = true := by
  have h := unknown_file_type_rejected "invoices" (by decide) sampleFS
    (.openbank sampleFS.openbank) {}
  exact ⟨h.1, h.2.2.1, (h.2.2.2 "openbank" (by decide)).1⟩

end OpenbankServer
